import Mathlib

/-!
Verification of the sequencing-saturation estimation subsystem of
`sc_scripts/Isoseq_corrected_bam_umi_counting_and_saturation_vComprehensive.py`.

The script streams alignment records carrying optional tags "CB" (cell
barcode) and "XM" (UMI), tallies reads per (barcode, UMI) pair, filters the
barcodes classified as real cells by an external table, computes per-cell and
global saturation indices, fits a Michaelis-Menten model, locates a knee
point on a 1000-point evaluation grid and projects extra sequencing depth.

Machine floats of the script are embedded as exact rationals; Python dicts
are embedded through the list of kept (barcode, umi) pairs, from which every
dict-derived quantity of the script (counts, key sets, sums) is recovered.
-/

/-- One alignment record as consumed by the tally loop of `main`: only the
optional tags "CB" (cell barcode) and "XM" (UMI) are ever read. -/
structure ReadRecord where
  cb : Option String
  xm : Option String
deriving DecidableEq

/-- The (barcode, umi) pairs of the records carrying both tags.  A record
missing either tag hits the `except KeyError: continue` branch of the loop
and is dropped. -/
def keptPairs (rs : List ReadRecord) : List (String × String) :=
  rs.filterMap fun r =>
    match r.cb, r.xm with
    | some cb, some umi => some (cb, umi)
    | _, _ => none

/-- The nested counter `read_counts[cell][umi]`: each kept record increments
its pair by one, so the final count of a pair is the number of its
occurrences among the kept pairs. -/
def tallyCount (rs : List ReadRecord) (cb umi : String) : ℕ :=
  (keptPairs rs).countP fun p => p.1 = cb ∧ p.2 = umi

/-- Keys of the outer dict `read_counts`: the barcodes occurring in some kept
record, each once.  (Python enumerates them in first-insertion order; no
quantity derived below depends on the enumeration order.) -/
def tallyKeys (rs : List ReadRecord) : List String :=
  ((keptPairs rs).map Prod.fst).dedup

/-- `sum(umi_dict.values())` for one barcode: the number of kept records
carrying it. -/
def total_reads (rs : List ReadRecord) (cb : String) : ℕ :=
  (keptPairs rs).countP fun p => p.1 = cb

/-- `len(umi_dict)` for one barcode: the number of distinct UMIs seen with it. -/
def unique_umis (rs : List ReadRecord) (cb : String) : ℕ :=
  (((keptPairs rs).filter fun p => p.1 = cb).map Prod.snd).dedup.length

/-- Line 63: `total_reads_all = sum(sum(umi_dict.values()) for umi_dict in
read_counts.values())`, the grand total over all tallied barcodes. -/
def total_reads_all (rs : List ReadRecord) : ℕ :=
  ((tallyKeys rs).map (total_reads rs)).sum

/-- One row of the barcode-stats table: the "#BarcodeSequence" and "RealCell"
columns, the only two the script reads. -/
structure BcStatsRow where
  barcodeSequence : String
  realCell : String
deriving DecidableEq

/-- Line 71: the set of barcodes whose RealCell column equals "cell". -/
def real_barcodes (tbl : List BcStatsRow) : List String :=
  (tbl.filter fun r => r.realCell = "cell").map BcStatsRow.barcodeSequence

/-- The tally keys that pass the real-cell filter (`if cell in real_barcodes`),
in tally order. -/
def filteredCells (rs : List ReadRecord) (tbl : List BcStatsRow) : List String :=
  (tallyKeys rs).filter fun cb => cb ∈ real_barcodes tbl

/-- Line 82: `saturation = 1 - (unique_umis / total_reads) if total_reads > 0
else 0`, for one barcode. -/
def saturation (rs : List ReadRecord) (cb : String) : ℚ :=
  if 0 < total_reads rs cb then
    1 - (unique_umis rs cb : ℚ) / (total_reads rs cb : ℚ)
  else 0

/-- The list `reads_per_cell` accumulated over the filtered cells. -/
def reads_per_cell (rs : List ReadRecord) (tbl : List BcStatsRow) : List ℕ :=
  (filteredCells rs tbl).map (total_reads rs)

/-- The list `unique_umis_per_cell` accumulated over the filtered cells. -/
def unique_umis_per_cell (rs : List ReadRecord) (tbl : List BcStatsRow) : List ℕ :=
  (filteredCells rs tbl).map (unique_umis rs)

/-- The list `saturation_indices` accumulated over the filtered cells. -/
def saturation_indices (rs : List ReadRecord) (tbl : List BcStatsRow) : List ℚ :=
  (filteredCells rs tbl).map (saturation rs)

/-- `np.mean(l) if l else 0`: arithmetic mean of a list, zero on the empty
list exactly as the guards on lines 86-87 arrange. -/
def listMean (l : List ℚ) : ℚ :=
  if l = [] then 0 else l.sum / (l.length : ℚ)

/-- Line 86: `mean_reads`. -/
def mean_reads (rs : List ReadRecord) (tbl : List BcStatsRow) : ℚ :=
  listMean ((reads_per_cell rs tbl).map fun n => (n : ℚ))

/-- Line 87: `mean_saturation`. -/
def mean_saturation (rs : List ReadRecord) (tbl : List BcStatsRow) : ℚ :=
  listMean (saturation_indices rs tbl)

/-- Line 89: `global_total_reads = sum(reads_per_cell)`. -/
def global_total_reads (rs : List ReadRecord) (tbl : List BcStatsRow) : ℕ :=
  (reads_per_cell rs tbl).sum

/-- Line 90: `global_total_unique = sum(unique_umis_per_cell)`. -/
def global_total_unique (rs : List ReadRecord) (tbl : List BcStatsRow) : ℕ :=
  (unique_umis_per_cell rs tbl).sum

/-- Line 91: `global_saturation = 1 - (global_total_unique /
global_total_reads) if global_total_reads > 0 else 0`. -/
def global_saturation (rs : List ReadRecord) (tbl : List BcStatsRow) : ℚ :=
  if 0 < global_total_reads rs tbl then
    1 - (global_total_unique rs tbl : ℚ) / (global_total_reads rs tbl : ℚ)
  else 0

/-- Line 93: `filtered_cell_count = len(reads_per_cell)`. -/
def filtered_cell_count (rs : List ReadRecord) (tbl : List BcStatsRow) : ℕ :=
  (reads_per_cell rs tbl).length

/-- Line 96: `fraction_filtered = global_total_reads / total_reads_all if
total_reads_all > 0 else 0`. -/
def fraction_filtered (rs : List ReadRecord) (tbl : List BcStatsRow) : ℚ :=
  if 0 < total_reads_all rs then
    (global_total_reads rs tbl : ℚ) / (total_reads_all rs : ℚ)
  else 0

/-- Line 138: `target_reads = 10000`. -/
def target_reads : ℕ := 10000

/-- Line 139: `extra_per_cell = max(0, target_reads - mean_reads)`. -/
def extra_per_cell (rs : List ReadRecord) (tbl : List BcStatsRow) : ℚ :=
  max 0 ((target_reads : ℚ) - mean_reads rs tbl)

/-- Line 140: `extra_reads_filtered = extra_per_cell * filtered_cell_count`. -/
def extra_reads_filtered (rs : List ReadRecord) (tbl : List BcStatsRow) : ℚ :=
  extra_per_cell rs tbl * (filtered_cell_count rs tbl : ℚ)

/-- Line 142: `total_extra_reads_required = extra_reads_filtered /
fraction_filtered if fraction_filtered > 0 else 0`. -/
def total_extra_reads_required (rs : List ReadRecord) (tbl : List BcStatsRow) : ℚ :=
  if 0 < fraction_filtered rs tbl then
    extra_reads_filtered rs tbl / fraction_filtered rs tbl
  else 0

-- Helper lemmas on the tally layer.

lemma keptPairs_append (l1 l2 : List ReadRecord) :
    keptPairs (l1 ++ l2) = keptPairs l1 ++ keptPairs l2 := by
  simp [keptPairs, List.filterMap_append]

lemma keptPairs_perm {l1 l2 : List ReadRecord} (h : l1.Perm l2) :
    (keptPairs l1).Perm (keptPairs l2) :=
  h.filterMap _

lemma sum_countP_dedup {α : Type} [DecidableEq α] (l : List α) :
    ((l.dedup.map fun a => l.countP fun b => b = a).sum) = l.length := by
  simpa [List.count_eq_countP] using List.sum_map_count_dedup_eq_length l

lemma keptPairs_length (rs : List ReadRecord) :
    (keptPairs rs).length = rs.countP fun r => r.cb.isSome && r.xm.isSome := by
  induction rs with
  | nil => rfl
  | cons r t ih =>
    rcases r with ⟨cb, xm⟩
    cases cb <;> cases xm <;>
      simp [keptPairs, List.filterMap_cons, List.countP_cons] at ih ⊢ <;> omega

lemma total_reads_map_fst (rs : List ReadRecord) (cb : String) :
    total_reads rs cb = ((keptPairs rs).map Prod.fst).countP fun b => b = cb := by
  rw [List.countP_map]; rfl

lemma keptPairs_cons_skip {r : ReadRecord} (h : r.cb = none ∨ r.xm = none)
    (rs : List ReadRecord) : keptPairs (r :: rs) = keptPairs rs := by
  rcases r with ⟨cb, xm⟩
  rcases h with h | h <;> simp only at h <;> subst h
  · simp [keptPairs, List.filterMap_cons]
  · cases cb <;> simp [keptPairs, List.filterMap_cons]

/-- Claim C4: the sum over tallied barcodes of total reads equals the number
of records carrying both the "CB" and the "XM" tag, and a record missing
either tag contributes to no tally entry (the loop skips it and raises
nothing). -/
theorem tally_total_conservation :
    (∀ rs : List ReadRecord,
      total_reads_all rs = rs.countP fun r => r.cb.isSome && r.xm.isSome) ∧
    (∀ (rs1 rs2 : List ReadRecord) (r : ReadRecord), r.cb = none ∨ r.xm = none →
      ∀ cb umi, tallyCount (rs1 ++ r :: rs2) cb umi = tallyCount (rs1 ++ rs2) cb umi) := by
  constructor
  · intro rs
    rw [total_reads_all, ← keptPairs_length rs]
    have hmap : (tallyKeys rs).map (total_reads rs)
        = (((keptPairs rs).map Prod.fst).dedup.map
            fun a => ((keptPairs rs).map Prod.fst).countP fun b => b = a) :=
      List.map_congr_left fun a _ => total_reads_map_fst rs a
    rw [hmap, sum_countP_dedup, List.length_map]
  · intro rs1 rs2 r h cb umi
    simp only [tallyCount, keptPairs_append, keptPairs_cons_skip h]

/-- Claim C5: the tally is order-independent (any permutation of the record
stream yields the same counts) and shard-mergeable (summing per-shard counts
per (barcode, umi) key over any partition of the stream recovers the whole
tally). -/
theorem tally_order_independent_and_mergeable :
    (∀ (rs1 rs2 : List ReadRecord), rs1.Perm rs2 →
      ∀ cb umi, tallyCount rs1 cb umi = tallyCount rs2 cb umi) ∧
    (∀ (rs : List ReadRecord) (shards : List (List ReadRecord)),
      rs.Perm shards.flatten →
      ∀ cb umi, (shards.map fun s => tallyCount s cb umi).sum = tallyCount rs cb umi) := by
  have hflat : ∀ (shards : List (List ReadRecord)),
      keptPairs shards.flatten = (shards.map keptPairs).flatten := by
    intro shards
    induction shards with
    | nil => rfl
    | cons s t ih => simp [keptPairs_append, ih]
  constructor
  · intro rs1 rs2 h cb umi
    exact (keptPairs_perm h).countP_eq _
  · intro rs shards h cb umi
    have h1 : tallyCount rs cb umi = tallyCount shards.flatten cb umi :=
      (keptPairs_perm h).countP_eq _
    rw [h1, tallyCount, hflat, List.countP_flatten, List.map_map]
    rfl

/-- Witness for C4 at a concrete stream: the record carrying no "XM" tag
leaves every tally count unchanged. -/
theorem tally_total_conservation_witness :
    ((⟨some "A", none⟩ : ReadRecord).cb = none ∨
      (⟨some "A", none⟩ : ReadRecord).xm = none) ∧
    tallyCount ([⟨some "A", some "u"⟩] ++ (⟨some "A", none⟩ : ReadRecord) :: []) "A" "u"
      = tallyCount ([(⟨some "A", some "u"⟩ : ReadRecord)] ++ []) "A" "u" :=
  ⟨Or.inr rfl,
    tally_total_conservation.2 [⟨some "A", some "u"⟩] [] ⟨some "A", none⟩ (Or.inr rfl) "A" "u"⟩

/-- Witness for C5 at a concrete stream: a transposed stream and a two-shard
partition both reproduce the tally. -/
theorem tally_order_independent_and_mergeable_witness :
    (([⟨some "A", some "u"⟩, ⟨some "B", some "v"⟩] : List ReadRecord).Perm
        [⟨some "B", some "v"⟩, ⟨some "A", some "u"⟩] ∧
      tallyCount [⟨some "A", some "u"⟩, ⟨some "B", some "v"⟩] "A" "u"
        = tallyCount [⟨some "B", some "v"⟩, ⟨some "A", some "u"⟩] "A" "u") ∧
    (([⟨some "A", some "u"⟩, ⟨some "B", some "v"⟩] : List ReadRecord).Perm
        ([[⟨some "B", some "v"⟩], [⟨some "A", some "u"⟩]] : List (List ReadRecord)).flatten ∧
      (([[⟨some "B", some "v"⟩], [⟨some "A", some "u"⟩]] : List (List ReadRecord)).map
          fun s => tallyCount s "A" "u").sum
        = tallyCount [⟨some "A", some "u"⟩, ⟨some "B", some "v"⟩] "A" "u") :=
  ⟨⟨by decide,
      tally_order_independent_and_mergeable.1 _ _ (by decide) "A" "u"⟩,
    ⟨by decide,
      tally_order_independent_and_mergeable.2 _ _ (by decide) "A" "u"⟩⟩

-- Per-cell invariants of the tally.

lemma unique_le_total (rs : List ReadRecord) (cb : String) :
    unique_umis rs cb ≤ total_reads rs cb := by
  rw [unique_umis, total_reads, List.countP_eq_length_filter]
  calc ((((keptPairs rs).filter fun p => p.1 = cb).map Prod.snd).dedup).length
      ≤ (((keptPairs rs).filter fun p => p.1 = cb).map Prod.snd).length :=
        (List.dedup_sublist _).length_le
    _ = (((keptPairs rs).filter fun p => p.1 = cb)).length := List.length_map _ _

lemma unique_pos_of_total_pos {rs : List ReadRecord} {cb : String}
    (h : 0 < total_reads rs cb) : 0 < unique_umis rs cb := by
  rw [total_reads, List.countP_eq_length_filter, List.length_pos] at h
  rw [unique_umis, List.length_pos]
  simpa [List.dedup_eq_nil] using h

lemma total_pos_of_mem_tallyKeys {rs : List ReadRecord} {cb : String}
    (h : cb ∈ tallyKeys rs) : 0 < total_reads rs cb := by
  rw [tallyKeys, List.mem_dedup, List.mem_map] at h
  obtain ⟨p, hp, hpcb⟩ := h
  rw [total_reads, List.countP_pos_iff]
  exact ⟨p, hp, by simp [hpcb]⟩

/-- Claim C10: every tally count is at least 1, every tallied barcode has
at least one unique UMI and at least as many total reads, so for cells drawn
from the tally the zero-total branch of the saturation guard is unreachable
and the division is by a positive denominator. -/
theorem tally_counts_positive :
    (∀ (rs : List ReadRecord) (cb umi : String), (cb, umi) ∈ keptPairs rs →
      1 ≤ tallyCount rs cb umi) ∧
    (∀ (rs : List ReadRecord) (cb : String), cb ∈ tallyKeys rs →
      1 ≤ unique_umis rs cb ∧ unique_umis rs cb ≤ total_reads rs cb ∧
      0 < total_reads rs cb ∧
      saturation rs cb
        = 1 - (unique_umis rs cb : ℚ) / (total_reads rs cb : ℚ)) := by
  constructor
  · intro rs cb umi h
    rw [tallyCount, Nat.one_le_iff_ne_zero, ← Nat.pos_iff_ne_zero, List.countP_pos_iff]
    exact ⟨(cb, umi), h, by simp⟩
  · intro rs cb h
    have ht := total_pos_of_mem_tallyKeys h
    have hu := unique_pos_of_total_pos ht
    exact ⟨hu, unique_le_total rs cb, ht, by rw [saturation, if_pos ht]⟩

/-- Witness for C10 at a concrete stream of one record. -/
theorem tally_counts_positive_witness :
    (("A", "u") ∈ keptPairs [(⟨some "A", some "u"⟩ : ReadRecord)] ∧
      1 ≤ tallyCount [(⟨some "A", some "u"⟩ : ReadRecord)] "A" "u") ∧
    ("A" ∈ tallyKeys [(⟨some "A", some "u"⟩ : ReadRecord)] ∧
      1 ≤ unique_umis [(⟨some "A", some "u"⟩ : ReadRecord)] "A") :=
  ⟨⟨by decide, tally_counts_positive.1 _ "A" "u" (by decide)⟩,
    ⟨by decide, (tally_counts_positive.2 _ "A" (by decide)).1⟩⟩

/-- Claim C8: per-cell saturation is total: it equals 1 - unique/total when
the cell has reads and 0 otherwise, and with reads present it lies in
[0, 1). -/
theorem saturation_defined_and_bounded :
    ∀ (rs : List ReadRecord) (cb : String),
      (0 < total_reads rs cb →
        saturation rs cb = 1 - (unique_umis rs cb : ℚ) / (total_reads rs cb : ℚ) ∧
        0 ≤ saturation rs cb ∧ saturation rs cb < 1) ∧
      (total_reads rs cb = 0 → saturation rs cb = 0) := by
  intro rs cb
  constructor
  · intro ht
    have htQ : (0 : ℚ) < (total_reads rs cb : ℚ) := by exact_mod_cast ht
    have hutQ : (unique_umis rs cb : ℚ) ≤ (total_reads rs cb : ℚ) := by
      exact_mod_cast unique_le_total rs cb
    have huQ : (0 : ℚ) < (unique_umis rs cb : ℚ) := by
      exact_mod_cast unique_pos_of_total_pos ht
    have hform : saturation rs cb
        = 1 - (unique_umis rs cb : ℚ) / (total_reads rs cb : ℚ) := by
      rw [saturation, if_pos ht]
    refine ⟨hform, ?_, ?_⟩
    · rw [hform]
      have : (unique_umis rs cb : ℚ) / (total_reads rs cb : ℚ) ≤ 1 :=
        (div_le_one htQ).mpr hutQ
      linarith
    · rw [hform]
      have : 0 < (unique_umis rs cb : ℚ) / (total_reads rs cb : ℚ) :=
        div_pos huQ htQ
      linarith
  · intro ht
    rw [saturation, if_neg (by omega)]

/-- Witness for C8 at a concrete stream of one record. -/
theorem saturation_defined_and_bounded_witness :
    0 < total_reads [(⟨some "A", some "u"⟩ : ReadRecord)] "A" ∧
      (0 ≤ saturation [(⟨some "A", some "u"⟩ : ReadRecord)] "A" ∧
        saturation [(⟨some "A", some "u"⟩ : ReadRecord)] "A" < 1) :=
  ⟨by decide,
    ((saturation_defined_and_bounded [(⟨some "A", some "u"⟩ : ReadRecord)] "A").1
      (by decide)).2⟩

-- Aggregated metrics: global saturation versus mean saturation.

/-- A concrete six-record stream: cell "A" has 2 reads of 1 UMI, cell "B"
has 4 reads of 1 UMI. -/
def twoCellStream : List ReadRecord :=
  [⟨some "A", some "u"⟩, ⟨some "A", some "u"⟩,
    ⟨some "B", some "v"⟩, ⟨some "B", some "v"⟩,
    ⟨some "B", some "v"⟩, ⟨some "B", some "v"⟩]

/-- A classification table marking both example barcodes as real cells. -/
def twoCellTable : List BcStatsRow :=
  [⟨"A", "cell"⟩, ⟨"B", "cell"⟩]

/-- Claim C3: global saturation is 1 - (sum of unique)/(sum of total) over
the filtered cells, guarded to 0 on a zero total, and it is genuinely
distinct from the mean of per-cell saturations: on the two-cell example the
global value is 2/3 while the mean is 5/8. -/
theorem global_saturation_formula_and_distinct :
    (∀ (rs : List ReadRecord) (tbl : List BcStatsRow),
      (0 < global_total_reads rs tbl →
        global_saturation rs tbl
          = 1 - (global_total_unique rs tbl : ℚ) / (global_total_reads rs tbl : ℚ)) ∧
      (global_total_reads rs tbl = 0 → global_saturation rs tbl = 0)) ∧
    global_saturation twoCellStream twoCellTable
      ≠ mean_saturation twoCellStream twoCellTable := by
  constructor
  · intro rs tbl
    constructor
    · intro h
      rw [global_saturation, if_pos h]
    · intro h
      rw [global_saturation, if_neg (by omega)]
  · have hfc : filteredCells twoCellStream twoCellTable = ["A", "B"] := by decide
    have htA : total_reads twoCellStream "A" = 2 := by decide
    have huA : unique_umis twoCellStream "A" = 1 := by decide
    have htB : total_reads twoCellStream "B" = 4 := by decide
    have huB : unique_umis twoCellStream "B" = 1 := by decide
    have hsatA : saturation twoCellStream "A" = 1 / 2 := by
      rw [saturation, htA, huA]; norm_num
    have hsatB : saturation twoCellStream "B" = 3 / 4 := by
      rw [saturation, htB, huB]; norm_num
    have hgt : global_total_reads twoCellStream twoCellTable = 6 := by decide
    have hgu : global_total_unique twoCellStream twoCellTable = 2 := by decide
    have hglobal : global_saturation twoCellStream twoCellTable = 2 / 3 := by
      rw [global_saturation, hgt, hgu]; norm_num
    have hmean : mean_saturation twoCellStream twoCellTable = 5 / 8 := by
      rw [mean_saturation, saturation_indices, hfc]
      rw [List.map_cons, List.map_cons, List.map_nil, hsatA, hsatB, listMean]
      rw [if_neg (by simp)]
      norm_num
    rw [hglobal, hmean]
    norm_num

/-- Witness for C3 on the two-cell example: the aggregated total is positive
and the aggregated formula applies. -/
theorem global_saturation_formula_witness :
    0 < global_total_reads twoCellStream twoCellTable ∧
      global_saturation twoCellStream twoCellTable
        = 1 - (global_total_unique twoCellStream twoCellTable : ℚ)
            / (global_total_reads twoCellStream twoCellTable : ℚ) :=
  ⟨by decide,
    (global_saturation_formula_and_distinct.1 twoCellStream twoCellTable).1 (by decide)⟩

/-- Claim C6: the depth projection with the default target of 10000 reads
per cell: extra reads per cell, total over filtered cells, fraction of reads
in filtered cells (which coincides with the unguarded quotient, the guard
only shadowing the division-by-zero convention of the rationals), and the
guarded grand total.  All quantities are total functions: no division error
can be raised. -/
theorem depth_projection_formulas :
    ∀ (rs : List ReadRecord) (tbl : List BcStatsRow),
      extra_per_cell rs tbl = max 0 (10000 - mean_reads rs tbl) ∧
      extra_reads_filtered rs tbl
        = extra_per_cell rs tbl * (filtered_cell_count rs tbl : ℚ) ∧
      fraction_filtered rs tbl
        = (global_total_reads rs tbl : ℚ) / (total_reads_all rs : ℚ) ∧
      total_extra_reads_required rs tbl
        = (if 0 < fraction_filtered rs tbl then
            extra_reads_filtered rs tbl / fraction_filtered rs tbl else 0) := by
  intro rs tbl
  refine ⟨?_, rfl, ?_, rfl⟩
  · rw [extra_per_cell, target_reads]; norm_num
  · rw [fraction_filtered]
    by_cases h : 0 < total_reads_all rs
    · rw [if_pos h]
    · rw [if_neg h]
      have h0 : total_reads_all rs = 0 := by omega
      rw [h0]
      norm_num

-- The Michaelis-Menten model and the 1000-point evaluation grid.

/-- Line 27: the Michaelis-Menten model `MM(x, Vmax, Km) = Vmax*x/(Km+x)`. -/
def MM (x vmax km : ℚ) : ℚ := vmax * x / (km + x)

/-- The grid resolution of `np.linspace(..., 1000)` on line 122. -/
def numGrid : ℕ := 1000

/-- `np.linspace(lo, hi, n)`: n evenly spaced points from lo to hi. -/
def linspace (lo hi : ℚ) (n : ℕ) : List ℚ :=
  (List.range n).map fun i : ℕ => lo + (hi - lo) * (i : ℚ) / ((n - 1 : ℕ) : ℚ)

/-- Line 122: the 1000-point grid `x_fit` over an observed range. -/
def x_fit (lo hi : ℚ) : List ℚ := linspace lo hi numGrid

/-- The i-th point of the 1000-point grid. -/
def gridPt (lo hi : ℚ) (i : ℕ) : ℚ :=
  lo + (hi - lo) * (i : ℚ) / ((numGrid - 1 : ℕ) : ℚ)

/-- The spacing between consecutive grid points. -/
def grid_step (lo hi : ℚ) : ℚ := (hi - lo) / ((numGrid - 1 : ℕ) : ℚ)

/-- Lines 126-127: `y_target = Vmax * 0.9`. -/
def y_target (vmax : ℚ) : ℚ := vmax * (9 / 10)

/-- Line 123: the fitted curve evaluated on the grid. -/
def y_fit (vmax km lo hi : ℚ) : List ℚ := (x_fit lo hi).map fun x => MM x vmax km

/-- Lines 128-130: the first index of `np.where(y_fit >= y_target)[0]`, when
that index array is nonempty. -/
def cutoff_index (vmax km lo hi : ℚ) : Option ℕ :=
  (y_fit vmax km lo hi).findIdx? fun y => y_target vmax ≤ y

/-- Lines 131 and 134: the trimmed grid, `x_fit[:cutoff_index]` when the
target is reached and the full grid otherwise. -/
def x_fit_trim (vmax km lo hi : ℚ) : List ℚ :=
  match cutoff_index vmax km lo hi with
  | some k => (x_fit lo hi).take k
  | none => x_fit lo hi

/-- Lines 168-172: `knee_x = x_fit[x_coef_indices[0]]` when the target is
reached on the grid, undefined (`np.nan`) otherwise. -/
def knee_x? (vmax km lo hi : ℚ) : Option ℚ :=
  (cutoff_index vmax km lo hi).bind fun k => (x_fit lo hi)[k]?

-- The fit stage and the shape of the program's observable output.

/-- One SaturationPoint `(reads, saturation)` of the fit input. -/
structure SatPoint where
  x : ℚ
  y : ℚ
deriving DecidableEq

/-- The fit input built on lines 106-107: one point per filtered cell. -/
def satPoints (rs : List ReadRecord) (tbl : List BcStatsRow) : List SatPoint :=
  (filteredCells rs tbl).map fun cb => ⟨(total_reads rs cb : ℚ), saturation rs cb⟩

/-- The error taxonomy of the fit stage. -/
inductive FitError where
  | insufficientData
  | fitConvergence
deriving DecidableEq

/-- A successful fit: parameters and their standard errors. -/
structure FitParams where
  vmax : ℚ
  km : ℚ
  sigmaVmax : ℚ
  sigmaKm : ℚ
deriving DecidableEq

/-- Modelled from the spec: the nonlinear least-squares optimizer behind
`curve_fit` on line 111 is scipy code, not part of this repository.  The
spec fixes the Curve Fitter's contract: it requires at least 2
SaturationPoints with at least 2 distinct x values and otherwise fails with
InsufficientDataError; the remaining optimizer behaviour (success, or
FitConvergenceError on non-convergence) is abstracted by the parameter
`opt`. -/
def fitCurve (opt : List SatPoint → Except FitError FitParams)
    (pts : List SatPoint) : Except FitError FitParams :=
  if pts.length < 2 ∨ (pts.map SatPoint.x).dedup.length < 2 then
    Except.error FitError.insufficientData
  else opt pts

/-- The curve-domain data derived from a successful fit (lines 122-135 and
167-172). -/
structure Extrapolation where
  cutoff : Option ℕ
  knee : Option ℚ
  trimmed : List ℚ
deriving DecidableEq

/-- `np.min` with a default for the empty list the script would die on. -/
def xMinOf (xs : List ℚ) : ℚ := xs.min?.getD 0

/-- `np.max` with a default for the empty list the script would die on. -/
def xMaxOf (xs : List ℚ) : ℚ := xs.max?.getD 0

/-- The extrapolation values computed from a successful fit over the
observed x values. -/
def extrapolate (fp : FitParams) (xs : List ℚ) : Extrapolation :=
  { cutoff := cutoff_index fp.vmax fp.km (xMinOf xs) (xMaxOf xs)
    knee := knee_x? fp.vmax fp.km (xMinOf xs) (xMaxOf xs)
    trimmed := x_fit_trim fp.vmax fp.km (xMinOf xs) (xMaxOf xs) }

/-- Lines 111-135: the extrapolation runs only after a successful fit. -/
def fitStage (opt : List SatPoint → Except FitError FitParams)
    (pts : List SatPoint) : Except FitError (FitParams × Extrapolation) :=
  match fitCurve opt pts with
  | Except.error e => Except.error e
  | Except.ok fp => Except.ok (fp, extrapolate fp (pts.map SatPoint.x))

/-- The statistics actually printed on lines 98-100: average reads per real
cell, the filtered cell count and the fraction of reads in filtered cells —
and nothing else; the saturation metrics are not among them. -/
structure PrintedStats where
  meanReads : ℚ
  cellCount : ℕ
  fractionFiltered : ℚ
deriving DecidableEq

/-- The printed statistics of a run (lines 98-100). -/
def printedStatsOf (rs : List ReadRecord) (tbl : List BcStatsRow) : PrintedStats :=
  ⟨mean_reads rs tbl, filtered_cell_count rs tbl, fraction_filtered rs tbl⟩

/-- The numeric labels drawn on the plot on lines 164-191, besides the
fit parameters and the knee: mean reads, mean saturation (line 165), global
saturation (line 175), cell count, fraction filtered and the three depth
projection figures.  The plot is the only output carrying the two
saturation metrics. -/
structure PlotFigures where
  meanReads : ℚ
  meanSaturation : ℚ
  globalSaturation : ℚ
  cellCount : ℕ
  fractionFiltered : ℚ
  extraPerCell : ℚ
  extraReadsFiltered : ℚ
  totalExtraRequired : ℚ
deriving DecidableEq

/-- The plot figures of a run: all are computed from the tally and the
table alone, before and independently of the fit. -/
def plotFiguresOf (rs : List ReadRecord) (tbl : List BcStatsRow) : PlotFigures :=
  ⟨mean_reads rs tbl, mean_saturation rs tbl, global_saturation rs tbl,
    filtered_cell_count rs tbl, fraction_filtered rs tbl,
    extra_per_cell rs tbl, extra_reads_filtered rs tbl,
    total_extra_reads_required rs tbl⟩

/-- The rows of the tally TSV written on lines 55-60: one row per
(barcode, umi) pair of the tally with its count. -/
def tallyRows (rs : List ReadRecord) : List (String × String × ℕ) :=
  (keptPairs rs).dedup.map fun p => (p.1, p.2, tallyCount rs p.1 p.2)

/-- The observable output events of `main`, in program order. -/
inductive Event where
  | tsv (rows : List (String × String × ℕ))
  | printed (s : PrintedStats)
  | plot (fp : FitParams) (ex : Extrapolation) (proj : PlotFigures)
  | abortWith (e : FitError)
deriving DecidableEq

/-- The event trace of one run of `main`: the TSV is written (lines 55-60)
and the three statistics printed (lines 98-100) before the fit on line 111;
a fit failure kills the script there, while success adds the plot carrying
the fit parameters, the knee data and the plot figures. -/
def mainTrace (opt : List SatPoint → Except FitError FitParams)
    (rs : List ReadRecord) (tbl : List BcStatsRow) : List Event :=
  [Event.tsv (tallyRows rs), Event.printed (printedStatsOf rs tbl)] ++
    match fitStage opt (satPoints rs tbl) with
    | Except.error e => [Event.abortWith e]
    | Except.ok (fp, ex) => [Event.plot fp ex (plotFiguresOf rs tbl)]

/-- The global-saturation value an event emits, if any: only the plot (its
line 175 text box) carries one. -/
def emittedGlobalSaturation : Event → Option ℚ
  | Event.plot _ _ figs => some figs.globalSaturation
  | _ => none

/-- The mean-saturation value an event emits, if any: only the plot (its
line 165 axhline label) carries one. -/
def emittedMeanSaturation : Event → Option ℚ
  | Event.plot _ _ figs => some figs.meanSaturation
  | _ => none

/-- Claim C1: with fewer than 2 points or fewer than 2 distinct x values
(in particular with exactly one SaturationPoint) the Curve Fitter fails with
InsufficientDataError, the extrapolation stage never runs, and the trace of
such a sample carries no plot event. -/
theorem insufficient_data_aborts_fit :
    ∀ (opt : List SatPoint → Except FitError FitParams) (pts : List SatPoint),
      (pts.length < 2 ∨ (pts.map SatPoint.x).dedup.length < 2) →
      fitCurve opt pts = Except.error FitError.insufficientData ∧
      fitStage opt pts = Except.error FitError.insufficientData ∧
      (∀ p : SatPoint, fitCurve opt [p] = Except.error FitError.insufficientData) ∧
      (∀ (rs : List ReadRecord) (tbl : List BcStatsRow), satPoints rs tbl = pts →
        ∀ fp ex proj, Event.plot fp ex proj ∉ mainTrace opt rs tbl) := by
  intro opt pts h
  have h1 : fitCurve opt pts = Except.error FitError.insufficientData := by
    rw [fitCurve, if_pos h]
  have h2 : fitStage opt pts = Except.error FitError.insufficientData := by
    rw [fitStage, h1]
  refine ⟨h1, h2, ?_, ?_⟩
  · intro p
    rw [fitCurve, if_pos (Or.inl (by simp))]
  · intro rs tbl hpts fp ex proj
    simp [mainTrace, hpts, h2]

/-- Witness for C1: a single SaturationPoint is rejected and the fit stage
returns no extrapolation. -/
theorem insufficient_data_aborts_fit_witness :
    (([(⟨1, 0⟩ : SatPoint)].length < 2 ∨
        ([(⟨1, 0⟩ : SatPoint)].map SatPoint.x).dedup.length < 2) ∧
      fitStage (fun _ => Except.ok ⟨1, 1, 0, 0⟩) [(⟨1, 0⟩ : SatPoint)]
        = Except.error FitError.insufficientData) :=
  ⟨Or.inl (by decide),
    (insufficient_data_aborts_fit (fun _ => Except.ok ⟨1, 1, 0, 0⟩)
      [(⟨1, 0⟩ : SatPoint)] (Or.inl (by decide))).2.1⟩

/-- Counterexample against C7 as stated: a concrete run whose fit fails
(two reads of one UMI in a single real cell, hence one SaturationPoint):
the global saturation is computed as 1/2, yet no event of the trace emits
the global or the mean saturation — lines 98-100 print only mean reads,
cell count and fraction, and the script dies at the fit before the plot,
the only output carrying the saturation metrics. -/
theorem saturation_metrics_unemitted_on_fit_failure :
    global_saturation [(⟨some "A", some "u"⟩ : ReadRecord), ⟨some "A", some "u"⟩]
        [(⟨"A", "cell"⟩ : BcStatsRow)] = 1 / 2 ∧
    fitStage (fun _ => Except.ok ⟨1, 1, 0, 0⟩)
        (satPoints [(⟨some "A", some "u"⟩ : ReadRecord), ⟨some "A", some "u"⟩]
          [(⟨"A", "cell"⟩ : BcStatsRow)])
      = Except.error FitError.insufficientData ∧
    (mainTrace (fun _ => Except.ok ⟨1, 1, 0, 0⟩)
        [(⟨some "A", some "u"⟩ : ReadRecord), ⟨some "A", some "u"⟩]
        [(⟨"A", "cell"⟩ : BcStatsRow)]).filterMap emittedGlobalSaturation = [] ∧
    (mainTrace (fun _ => Except.ok ⟨1, 1, 0, 0⟩)
        [(⟨some "A", some "u"⟩ : ReadRecord), ⟨some "A", some "u"⟩]
        [(⟨"A", "cell"⟩ : BcStatsRow)]).filterMap emittedMeanSaturation = [] := by
  refine ⟨?_, rfl, rfl, rfl⟩
  have hgt : global_total_reads
      [(⟨some "A", some "u"⟩ : ReadRecord), ⟨some "A", some "u"⟩]
      [(⟨"A", "cell"⟩ : BcStatsRow)] = 2 := by decide
  have hgu : global_total_unique
      [(⟨some "A", some "u"⟩ : ReadRecord), ⟨some "A", some "u"⟩]
      [(⟨"A", "cell"⟩ : BcStatsRow)] = 1 := by decide
  rw [global_saturation, hgt, hgu]
  norm_num

/-- Claim C7 (amended): the tally rows and the printed statistics (mean
reads, cell count, fraction filtered) are emitted before the fit stage and
do not depend on its outcome; when the fit fails the trace surfaces the
error and carries no plot event — so no curve-derived figure (Vmax, Km, knee,
depth projection) is fabricated — and emits neither saturation metric,
those being plot-only; when the fit succeeds the emitted plot figures are
exactly the values computed from the tally and the table before the fit. -/
theorem fit_failure_emission_policy :
    ∀ (opt : List SatPoint → Except FitError FitParams)
      (rs : List ReadRecord) (tbl : List BcStatsRow),
      (∃ rest, mainTrace opt rs tbl
        = Event.tsv (tallyRows rs) :: Event.printed (printedStatsOf rs tbl) :: rest) ∧
      (∀ e, fitStage opt (satPoints rs tbl) = Except.error e →
        mainTrace opt rs tbl
          = [Event.tsv (tallyRows rs), Event.printed (printedStatsOf rs tbl),
              Event.abortWith e] ∧
        (∀ fp ex figs, Event.plot fp ex figs ∉ mainTrace opt rs tbl) ∧
        (mainTrace opt rs tbl).filterMap emittedGlobalSaturation = [] ∧
        (mainTrace opt rs tbl).filterMap emittedMeanSaturation = []) ∧
      (∀ fp ex, fitStage opt (satPoints rs tbl) = Except.ok (fp, ex) →
        mainTrace opt rs tbl
          = [Event.tsv (tallyRows rs), Event.printed (printedStatsOf rs tbl),
              Event.plot fp ex (plotFiguresOf rs tbl)]) := by
  intro opt rs tbl
  refine ⟨?_, ?_, ?_⟩
  · cases hfs : fitStage opt (satPoints rs tbl) with
    | error e => exact ⟨[Event.abortWith e], by simp [mainTrace, hfs]⟩
    | ok pr =>
      obtain ⟨fp, ex⟩ := pr
      exact ⟨[Event.plot fp ex (plotFiguresOf rs tbl)], by simp [mainTrace, hfs]⟩
  · intro e hfs
    have htr : mainTrace opt rs tbl
        = [Event.tsv (tallyRows rs), Event.printed (printedStatsOf rs tbl),
            Event.abortWith e] := by
      simp [mainTrace, hfs]
    refine ⟨htr, ?_, ?_, ?_⟩
    · intro fp ex figs
      rw [htr]
      simp
    · rw [htr]
      rfl
    · rw [htr]
      rfl
  · intro fp ex hfs
    simp [mainTrace, hfs]

/-- Witness for the amended C7: with an empty sample the fit fails for lack
of data, yet the trace still opens with the tally and the printed
statistics and closes with the surfaced error. -/
theorem fit_failure_emission_policy_witness :
    fitStage (fun _ => Except.error FitError.fitConvergence) (satPoints [] [])
        = Except.error FitError.insufficientData ∧
      mainTrace (fun _ => Except.error FitError.fitConvergence) [] []
        = [Event.tsv (tallyRows []), Event.printed (printedStatsOf [] []),
            Event.abortWith FitError.insufficientData] :=
  ⟨rfl,
    ((fit_failure_emission_policy (fun _ => Except.error FitError.fitConvergence)
      [] []).2.1 FitError.insufficientData rfl).1⟩

-- Grid geometry lemmas.

lemma numGrid_sub_one_cast : ((numGrid - 1 : ℕ) : ℚ) = 999 := by
  norm_num [numGrid]

lemma x_fit_length (lo hi : ℚ) : (x_fit lo hi).length = numGrid := by
  rw [x_fit, linspace, List.length_map, List.length_range]

lemma x_fit_getElem (lo hi : ℚ) {i : ℕ} (h : i < (x_fit lo hi).length) :
    (x_fit lo hi)[i] = gridPt lo hi i := by
  simp only [x_fit, linspace, List.getElem_map, List.getElem_range]
  rfl

lemma x_fit_getElem? (lo hi : ℚ) {i : ℕ} (h : i < numGrid) :
    (x_fit lo hi)[i]? = some (gridPt lo hi i) := by
  simp only [x_fit, linspace, List.getElem?_map, List.getElem?_range h,
    Option.map_some]
  rfl

lemma y_fit_length (vmax km lo hi : ℚ) : (y_fit vmax km lo hi).length = numGrid := by
  rw [y_fit, List.length_map, x_fit_length]

lemma y_fit_getElem (vmax km lo hi : ℚ) {i : ℕ} (h : i < (y_fit vmax km lo hi).length) :
    (y_fit vmax km lo hi)[i] = MM (gridPt lo hi i) vmax km := by
  simp only [y_fit, List.getElem_map]
  rw [x_fit_getElem]

lemma gridPt_zero (lo hi : ℚ) : gridPt lo hi 0 = lo := by
  simp [gridPt]

lemma gridPt_const (lo : ℚ) (i : ℕ) : gridPt lo lo i = lo := by
  simp [gridPt]

lemma gridPt_last (lo hi : ℚ) : gridPt lo hi (numGrid - 1) = hi := by
  rw [gridPt, numGrid_sub_one_cast]
  rw [mul_div_assoc, div_self (by norm_num : (999 : ℚ) ≠ 0), mul_one]
  ring

lemma gridPt_succ (lo hi : ℚ) (i : ℕ) :
    gridPt lo hi (i + 1) = gridPt lo hi i + grid_step lo hi := by
  rw [gridPt, gridPt, grid_step, numGrid_sub_one_cast]
  push_cast
  ring

lemma grid_step_nonneg {lo hi : ℚ} (h : lo ≤ hi) : 0 ≤ grid_step lo hi := by
  rw [grid_step, numGrid_sub_one_cast]
  exact div_nonneg (by linarith) (by norm_num)

lemma gridPt_mono {lo hi : ℚ} (h : lo ≤ hi) {i j : ℕ} (hij : i ≤ j) :
    gridPt lo hi i ≤ gridPt lo hi j := by
  rw [gridPt, gridPt, numGrid_sub_one_cast]
  have h1 : (0 : ℚ) ≤ hi - lo := by linarith
  have h2 : (i : ℚ) ≤ (j : ℚ) := by exact_mod_cast hij
  have h3 : (hi - lo) * (i : ℚ) ≤ (hi - lo) * (j : ℚ) :=
    mul_le_mul_of_nonneg_left h2 h1
  have h4 : (hi - lo) * (i : ℚ) / 999 ≤ (hi - lo) * (j : ℚ) / 999 :=
    (div_le_div_right (by norm_num)).mpr h3
  linarith

lemma gridPt_strictMono {lo hi : ℚ} (h : lo < hi) {i j : ℕ} (hij : i < j) :
    gridPt lo hi i < gridPt lo hi j := by
  rw [gridPt, gridPt, numGrid_sub_one_cast]
  have h1 : (0 : ℚ) < hi - lo := by linarith
  have h2 : (i : ℚ) < (j : ℚ) := by exact_mod_cast hij
  have h3 : (hi - lo) * (i : ℚ) < (hi - lo) * (j : ℚ) :=
    mul_lt_mul_of_pos_left h2 h1
  have h4 : (hi - lo) * (i : ℚ) / 999 < (hi - lo) * (j : ℚ) / 999 :=
    (div_lt_div_right (by norm_num)).mpr h3
  linarith

lemma MM_ge_target_iff {vmax km x : ℚ} (hV : 0 < vmax) (hK : 0 < km)
    (hx : 0 ≤ x) : y_target vmax ≤ MM x vmax km ↔ 9 * km ≤ x := by
  have hkx : (0 : ℚ) < km + x := by linarith
  rw [y_target, MM, le_div_iff hkx]
  rw [show vmax * (9 / 10) * (km + x) = vmax * (9 / 10 * (km + x)) by ring]
  rw [mul_le_mul_left hV]
  constructor <;> intro h <;> linarith

/-- Claim C2 (amended): when some grid point reaches 0.9*Vmax, the cutoff is
the first such index, knee_x is that grid point, and the trimmed domain is
the grid points strictly before the knee — the half-open interval
[min x, knee_x), knee point excluded; when no grid point reaches the target
the trimmed domain is the full grid and knee_x is undefined, with no error. -/
theorem knee_and_trim_characterization (vmax km lo hi : ℚ) (hlh : lo ≤ hi) :
    (∀ k, cutoff_index vmax km lo hi = some k →
      knee_x? vmax km lo hi = some (gridPt lo hi k) ∧
      y_target vmax ≤ MM (gridPt lo hi k) vmax km ∧
      (∀ j, j < k → MM (gridPt lo hi j) vmax km < y_target vmax) ∧
      x_fit_trim vmax km lo hi = (x_fit lo hi).take k ∧
      (∀ x ∈ x_fit_trim vmax km lo hi, lo ≤ x ∧ x < gridPt lo hi k)) ∧
    (cutoff_index vmax km lo hi = none →
      x_fit_trim vmax km lo hi = x_fit lo hi ∧ knee_x? vmax km lo hi = none) := by
  constructor
  · intro k hk
    have hchar := hk
    rw [cutoff_index, List.findIdx?_eq_some_iff_getElem] at hchar
    obtain ⟨hklen, hpk, hprev⟩ := hchar
    have hklen' : k < numGrid := by rwa [y_fit_length] at hklen
    have hk_ge : y_target vmax ≤ MM (gridPt lo hi k) vmax km := by
      have h := hpk
      simp only [decide_eq_true_eq] at h
      rwa [y_fit_getElem vmax km lo hi hklen] at h
    have hk_lt : ∀ j, j < k → MM (gridPt lo hi j) vmax km < y_target vmax := by
      intro j hj
      have hjlen : j < (y_fit vmax km lo hi).length := lt_trans hj hklen
      have h3 := hprev j hj
      simp only [decide_eq_true_eq] at h3
      rw [y_fit_getElem vmax km lo hi hjlen] at h3
      exact lt_of_not_le h3
    have hknee : knee_x? vmax km lo hi = some (gridPt lo hi k) := by
      rw [knee_x?, hk]
      simp [x_fit_getElem? lo hi hklen']
    have htrim : x_fit_trim vmax km lo hi = (x_fit lo hi).take k := by
      simp only [x_fit_trim, hk]
    refine ⟨hknee, hk_ge, hk_lt, htrim, ?_⟩
    intro x hx
    rw [htrim, List.mem_take_iff_getElem] at hx
    obtain ⟨i, him, hxi⟩ := hx
    have hik : i < k := (lt_min_iff.mp him).1
    have hilen : i < (x_fit lo hi).length := (lt_min_iff.mp him).2
    have hxeq : x = gridPt lo hi i := by rw [← hxi, x_fit_getElem]
    constructor
    · rw [hxeq]
      calc lo = gridPt lo hi 0 := (gridPt_zero lo hi).symm
        _ ≤ gridPt lo hi i := gridPt_mono hlh (Nat.zero_le i)
    · rw [hxeq]
      rcases lt_or_eq_of_le hlh with hlt | heq
      · exact gridPt_strictMono hlt hik
      · exfalso
        have h0k : 0 < k := lt_of_le_of_lt (Nat.zero_le i) hik
        have hlow := hk_lt 0 h0k
        rw [← heq, gridPt_const] at hlow
        have hhigh := hk_ge
        rw [← heq, gridPt_const] at hhigh
        exact absurd hhigh (not_le.mpr hlow)
  · intro hnone
    constructor
    · simp only [x_fit_trim, hnone]
    · simp [knee_x?, hnone]

/-- Counterexample against C2 as stated: with Vmax = 1, Km = 1 over the
observed range [9, 1000], the model already reaches 0.9*Vmax at the first
grid point, so knee_x = 9 exists, yet the trimmed domain x_fit[:cutoff] is
empty and does not contain the knee point — the trimmed domain is not the
closed interval up to and including knee_x. -/
theorem knee_point_excluded_from_trim :
    cutoff_index 1 1 9 1000 = some 0 ∧
      knee_x? 1 1 9 1000 = some 9 ∧
      x_fit_trim 1 1 9 1000 = [] ∧
      (9 : ℚ) ∉ x_fit_trim 1 1 9 1000 := by
  have hlen : 0 < (y_fit 1 1 9 1000).length := by
    rw [y_fit_length]; norm_num [numGrid]
  have h0 : cutoff_index 1 1 9 1000 = some 0 := by
    rw [cutoff_index, List.findIdx?_eq_some_iff_getElem]
    refine ⟨hlen, ?_, ?_⟩
    · simp only [decide_eq_true_eq]
      rw [y_fit_getElem 1 1 9 1000 hlen, gridPt_zero]
      rw [y_target, MM]
      norm_num
    · intro j hj
      exact absurd hj (Nat.not_lt_zero j)
  have hknee : knee_x? 1 1 9 1000 = some 9 := by
    rw [knee_x?, h0]
    have h9 : gridPt 9 1000 0 = 9 := gridPt_zero 9 1000
    simp [x_fit_getElem? 9 1000 (show 0 < numGrid by norm_num [numGrid]), h9]
  have htrim : x_fit_trim 1 1 9 1000 = [] := by
    simp [x_fit_trim, h0]
  exact ⟨h0, hknee, htrim, by rw [htrim]; simp⟩

/-- Witness for the amended C2 at a concrete instance, discharging the
range hypothesis. -/
theorem knee_and_trim_characterization_witness :
    (9 : ℚ) ≤ 1000 ∧
      (cutoff_index 1 1 9 1000 = none →
        x_fit_trim 1 1 9 1000 = x_fit 9 1000 ∧ knee_x? 1 1 9 1000 = none) :=
  ⟨by norm_num, (knee_and_trim_characterization 1 1 9 1000 (by norm_num)).2⟩

/-- Claim C9: for positive Vmax and Km, on exact model values over an
observed range [lo, hi] with 0 <= lo <= 9*Km <= hi, the knee search finds a
grid point, knee_x is defined there, and it lies within one grid step above
x = 9*Km (the exact solution of Vmax*x/(Km+x) = 0.9*Vmax). -/
theorem knee_close_to_nine_km (vmax km lo hi : ℚ)
    (hV : 0 < vmax) (hK : 0 < km) (hlo : 0 ≤ lo)
    (h1 : lo ≤ 9 * km) (h2 : 9 * km ≤ hi) :
    ∃ k, cutoff_index vmax km lo hi = some k ∧
      knee_x? vmax km lo hi = some (gridPt lo hi k) ∧
      9 * km ≤ gridPt lo hi k ∧
      gridPt lo hi k ≤ 9 * km + grid_step lo hi := by
  have hlh : lo ≤ hi := le_trans h1 h2
  have hnn : ∀ i : ℕ, 0 ≤ gridPt lo hi i := by
    intro i
    calc (0 : ℚ) ≤ lo := hlo
      _ = gridPt lo hi 0 := (gridPt_zero lo hi).symm
      _ ≤ gridPt lo hi i := gridPt_mono hlh (Nat.zero_le i)
  have hlast : y_target vmax ≤ MM (gridPt lo hi (numGrid - 1)) vmax km := by
    rw [MM_ge_target_iff hV hK (hnn _), gridPt_last]
    exact h2
  have hne : cutoff_index vmax km lo hi ≠ none := by
    intro hnone
    rw [cutoff_index, List.findIdx?_eq_none_iff] at hnone
    have hlen : numGrid - 1 < (y_fit vmax km lo hi).length := by
      rw [y_fit_length]; norm_num [numGrid]
    have hfalse := hnone _ (List.getElem_mem hlen)
    rw [y_fit_getElem vmax km lo hi hlen, decide_eq_false_iff_not] at hfalse
    exact hfalse hlast
  obtain ⟨k, hk⟩ := Option.ne_none_iff_exists'.mp hne
  have hchar := hk
  rw [cutoff_index, List.findIdx?_eq_some_iff_getElem] at hchar
  obtain ⟨hklen, hpk, hprev⟩ := hchar
  have hklen' : k < numGrid := by rwa [y_fit_length] at hklen
  have hk_ge : 9 * km ≤ gridPt lo hi k := by
    have h := hpk
    simp only [decide_eq_true_eq] at h
    rw [y_fit_getElem vmax km lo hi hklen] at h
    exact (MM_ge_target_iff hV hK (hnn k)).mp h
  have hk_le : gridPt lo hi k ≤ 9 * km + grid_step lo hi := by
    cases k with
    | zero =>
      rw [gridPt_zero]
      have := grid_step_nonneg hlh
      linarith
    | succ j =>
      have hjlen : j < (y_fit vmax km lo hi).length :=
        lt_trans (Nat.lt_succ_self j) hklen
      have h3 := hprev j (Nat.lt_succ_self j)
      simp only [decide_eq_true_eq] at h3
      rw [y_fit_getElem vmax km lo hi hjlen] at h3
      have h4 : gridPt lo hi j < 9 * km := by
        by_contra h5
        exact h3 ((MM_ge_target_iff hV hK (hnn j)).mpr (le_of_not_lt h5))
      have h6 := gridPt_succ lo hi j
      linarith
  have hknee : knee_x? vmax km lo hi = some (gridPt lo hi k) := by
    rw [knee_x?, hk]
    simp [x_fit_getElem? lo hi hklen']
  exact ⟨k, hk, hknee, hk_ge, hk_le⟩

/-- Witness for C9 at Vmax = 1, Km = 1 over the observed range [0, 1000]. -/
theorem knee_close_to_nine_km_witness :
    ((0 : ℚ) < 1 ∧ (0 : ℚ) ≤ 0 ∧ (0 : ℚ) ≤ 9 * 1 ∧ 9 * 1 ≤ (1000 : ℚ)) ∧
      ∃ k, cutoff_index 1 1 0 1000 = some k ∧
        knee_x? 1 1 0 1000 = some (gridPt 0 1000 k) ∧
        9 * 1 ≤ gridPt 0 1000 k ∧
        gridPt 0 1000 k ≤ 9 * 1 + grid_step 0 1000 :=
  ⟨⟨by norm_num, by norm_num, by norm_num, by norm_num⟩,
    knee_close_to_nine_km 1 1 0 1000 (by norm_num) (by norm_num) (by norm_num)
      (by norm_num) (by norm_num)⟩
